import Mathlib

/-!
Shallow embedding of the live-location / ETA engine of the Campus-Bus-Tracker
repository (backend/utils/etaCalculator.js, backend/models/LiveBusLocation.js,
the BusStop model, the location controller and the socket service), together
with theorems checking the specification's claims against it.

Numbers are modelled as rationals.  The JavaScript `Math` primitives
(sin, cos, sqrt, atan2, PI) are the runtime's math library, external to the
repository; they are abstracted as a structure of rational-valued functions so
that every definition stays executable, and theorems assume only the basic
algebraic facts about them that the claims need (e.g. that sine is odd).
-/

namespace CampusBus

/-- Abstraction of the JavaScript `Math` object used by the source
(`Math.sin`, `Math.cos`, `Math.sqrt`, `Math.atan2`, `Math.PI`). -/
structure JsMath where
  sin : ℚ → ℚ
  cos : ℚ → ℚ
  sqrt : ℚ → ℚ
  atan2 : ℚ → ℚ → ℚ
  pi : ℚ

/-- JavaScript `Math.round`: round half toward positive infinity. -/
def jsRound (q : ℚ) : ℤ := ⌊q + 1/2⌋

/-- A latitude/longitude pair (`{lat, lng}` objects in the source). -/
structure Coord where
  lat : ℚ
  lng : ℚ
deriving DecidableEq

/-- `ETACalculator.toRadians(degrees)`: `degrees * (Math.PI / 180)`. -/
def toRadians (m : JsMath) (degrees : ℚ) : ℚ := degrees * (m.pi / 180)

/-- `ETACalculator.calculateDistance(coord1, coord2)`: haversine distance in
kilometers with Earth radius 6371 km (etaCalculator.js lines 13-28). -/
def calculateDistance (m : JsMath) (coord1 coord2 : Coord) : ℚ :=
  let R : ℚ := 6371
  let lat1Rad := toRadians m coord1.lat
  let lat2Rad := toRadians m coord2.lat
  let deltaLatRad := toRadians m (coord2.lat - coord1.lat)
  let deltaLngRad := toRadians m (coord2.lng - coord1.lng)
  let a := m.sin (deltaLatRad / 2) * m.sin (deltaLatRad / 2) +
    m.cos lat1Rad * m.cos lat2Rad *
    (m.sin (deltaLngRad / 2) * m.sin (deltaLngRad / 2))
  let c := 2 * m.atan2 (m.sqrt a) (m.sqrt (1 - a))
  R * c

/-- The `calculateDistanceTo(lat, lng)` instance method shared (verbatim) by the
`BusStop` and `LiveBusLocation` models: haversine distance in METERS from
`this`'s coordinate to the given point (`R * c * 1000`). -/
def calculateDistanceToMeters (m : JsMath) (thisLat thisLng lat lng : ℚ) : ℚ :=
  let R : ℚ := 6371
  let dLat := toRadians m (lat - thisLat)
  let dLng := toRadians m (lng - thisLng)
  let a := m.sin (dLat / 2) * m.sin (dLat / 2) +
    m.cos (toRadians m thisLat) * m.cos (toRadians m lat) *
    (m.sin (dLng / 2) * m.sin (dLng / 2))
  let c := 2 * m.atan2 (m.sqrt a) (m.sqrt (1 - a))
  R * c * 1000

/-- ETA confidence labels. -/
inductive Confidence where
  | low
  | medium
  | high
deriving DecidableEq

/-- The result object of the ETA estimator.  Fields a given code path does not
put on the returned object are `none`. -/
structure ETAResult where
  eta : Option ℚ
  durationMinutes : ℤ
  distanceKm : Option ℚ
  speedKmh : Option ℚ
  isRealtime : Bool
  confidence : Confidence
  status : Option String
deriving DecidableEq

/-- `ETACalculator.calculateETA(distanceKm, speedKmh, bufferMinutes = 2)`
(etaCalculator.js lines 46-74).  `now` stands for `Date.now()` in
milliseconds; the returned `eta` is a millisecond timestamp.  The JavaScript
falsiness tests `!distanceKm` / `!speedKmh` coincide with `= 0` on rationals
and are absorbed by the `≤ 0` comparisons. -/
def calculateETA (now : ℚ) (distanceKm speedKmh : ℚ) (bufferMinutes : ℚ := 2) :
    ETAResult :=
  if distanceKm ≤ 0 then
    { eta := none
      durationMinutes := 0
      distanceKm := none
      speedKmh := none
      isRealtime := false
      confidence := Confidence.low
      status := none }
  else
    let speed := if speedKmh ≤ 0 then (25 : ℚ) else speedKmh
    let durationMinutes := (distanceKm / speed) * 60
    let totalMinutes := durationMinutes + bufferMinutes
    { eta := some (now + totalMinutes * 60 * 1000)
      durationMinutes := jsRound totalMinutes
      distanceKm := some ((jsRound (distanceKm * 100) : ℚ) / 100)
      speedKmh := some ((jsRound (speed * 100) : ℚ) / 100)
      isRealtime := decide (0 < speed)
      confidence := if 5 < speed then Confidence.high else Confidence.medium
      status := none }

/-- The accumulation loop of `calculateSmoothedETA` (etaCalculator.js lines
124-131): starting at index `i`, returns `(weightedSum, totalWeight)` where
each sample at index `j` contributes weight `j + 1`. -/
def weightedSums : List ℚ → ℕ → ℚ × ℚ
  | [], _ => (0, 0)
  | s :: rest, i =>
    let p := weightedSums rest (i + 1)
    (s * ((i : ℚ) + 1) + p.1, ((i : ℚ) + 1) + p.2)

/-- `ETACalculator.calculateSmoothedETA(speedSamples, distanceKm)`
(etaCalculator.js lines 109-136). -/
def calculateSmoothedETA (now : ℚ) (speedSamples : List ℚ) (distanceKm : ℚ) :
    ETAResult :=
  if speedSamples.isEmpty ∨ distanceKm = 0 then
    calculateETA now distanceKm 0
  else
    let validSpeeds := speedSamples.filter (fun speed => 0 < speed ∧ speed < 120)
    if validSpeeds.isEmpty then
      calculateETA now distanceKm 0
    else
      let p := weightedSums validSpeeds 0
      let averageSpeed := p.1 / p.2
      calculateETA now distanceKm averageSpeed

/-- `ETACalculator.estimateTimeToStop(busLocation, stopLocation, currentSpeed,
recentSpeeds = [])` (etaCalculator.js lines 146-163). -/
def estimateTimeToStop (m : JsMath) (now : ℚ) (busLocation stopLocation : Coord)
    (currentSpeed : ℚ) (recentSpeeds : List ℚ := []) : ETAResult :=
  let distanceKm := calculateDistance m busLocation stopLocation
  if distanceKm < 1/10 then
    { eta := some (now + 60 * 1000)
      durationMinutes := 1
      distanceKm := some distanceKm
      speedKmh := none
      isRealtime := true
      confidence := Confidence.high
      status := some "arriving" }
  else
    let speedSamples := if recentSpeeds.length > 0 then recentSpeeds else [currentSpeed]
    calculateSmoothedETA now speedSamples distanceKm

/-- Stated from the specification's words, for comparison with the source's
loop: the linearly recency-weighted average in which the i-th sample
(1-indexed, oldest first) receives weight i. -/
def specWeightedAverage (speeds : List ℚ) : ℚ :=
  ((speeds.enum.map (fun p => p.2 * ((p.1 : ℚ) + 1))).sum) /
    ((speeds.enum.map (fun p => ((p.1 : ℚ) + 1))).sum)

/-- A row of the `bus_stops` table (the BusStop model). -/
structure BusStop where
  id : ℕ
  name : String
  latitude : ℚ
  longitude : ℚ
  stopOrder : ℕ
  routeId : ℕ
deriving DecidableEq

/-- `BusStop.prototype.calculateDistanceTo(lat, lng)`: haversine meters from
the stop to the given point. -/
def BusStop.calcDistanceTo (m : JsMath) (stop : BusStop) (lat lng : ℚ) : ℚ :=
  calculateDistanceToMeters m stop.latitude stop.longitude lat lng

/-- The `forEach` scan of `BusStop.findNextStop`: the accumulator holds the
current best stop with its distance (`none` models the initial
`nextStop = null` / `minDistance = Infinity` state, against which every finite
distance compares below). -/
def findNextStopGo (dist : BusStop → ℚ) :
    List BusStop → Option (BusStop × ℚ) → Option (BusStop × ℚ)
  | [], acc => acc
  | stop :: rest, acc =>
    let d := dist stop
    let acc2 : Option (BusStop × ℚ) :=
      match acc with
      | none => if 100 < d then some (stop, d) else none
      | some best => if d < best.2 ∧ 100 < d then some (stop, d) else some best
    findNextStopGo dist rest acc2

/-- `BusStop.findNextStop(routeId, currentLat, currentLng)` (part_002 lines
362-382).  The database query `findAll({where: {routeId}, order: stopOrder
ASC})` is modelled by passing in the route's stop list, ordered by
`stopOrder`. -/
def findNextStop (m : JsMath) (stops : List BusStop) (currentLat currentLng : ℚ) :
    Option BusStop :=
  if stops.isEmpty then none
  else
    (findNextStopGo (fun s => s.calcDistanceTo m currentLat currentLng) stops
      none).map Prod.fst

/-- A row of the `live_bus_locations` table (the LiveBusLocation model).
Nullable columns are `Option`s. -/
structure LiveLoc where
  busId : ℕ
  driverId : ℕ
  latitude : ℚ
  longitude : ℚ
  speedKmh : Option ℚ
  heading : Option ℚ
  accuracyMeters : Option ℚ
  isLocationSharing : Bool
  currentRouteId : Option ℕ
  nextStopId : Option ℕ
  distanceToNextStop : Option ℚ
  etaToNextStop : Option ℚ
  tripStartedAt : Option ℚ
deriving DecidableEq

/-- `LiveBusLocation.prototype.updateETA()` (LiveBusLocation.js lines
173-209).  `fetchStop` models `BusStop.findByPk(this.nextStopId)`: `.error`
is a thrown database error (landing in the `catch`, which nulls the ETA),
`.ok none` a missing row.  The guard
`!this.nextStopId || !this.speedKmh || parseFloat(this.speedKmh) <= 0`
is: next stop unset, or speed null, or speed ≤ 0 (JavaScript `!0` is true and
is absorbed by `≤ 0`). -/
def updateETA (m : JsMath) (now : ℚ) (fetchStop : ℕ → Except Unit (Option BusStop))
    (loc : LiveLoc) : LiveLoc :=
  match loc.nextStopId, loc.speedKmh with
  | none, _ => { loc with etaToNextStop := none }
  | some _, none => { loc with etaToNextStop := none }
  | some sid, some sp =>
    if sp ≤ 0 then { loc with etaToNextStop := none }
    else
      match fetchStop sid with
      | Except.error _ => { loc with etaToNextStop := none }
      | Except.ok none => { loc with etaToNextStop := none }
      | Except.ok (some nextStop) =>
        let d := calculateDistanceToMeters m loc.latitude loc.longitude
          nextStop.latitude nextStop.longitude
        let distanceKm := d / 1000
        if 0 < sp then
          { loc with
              distanceToNextStop := some d
              etaToNextStop := some (now + (distanceKm / sp) * 60 * 60 * 1000) }
        else
          { loc with distanceToNextStop := some d, etaToNextStop := none }

/-- `LiveBusLocation.prototype.updateNextStop()` (LiveBusLocation.js lines
211-229).  `stopsOfRoute` models the `BusStop.findNextStop` database query for
the route's ordered stops; a thrown error lands in the `catch`, which only
logs (the record is left unchanged).  When the search finds no stop, nothing
is updated — in particular the stored ETA is left as it was. -/
def updateNextStop (m : JsMath) (now : ℚ)
    (stopsOfRoute : ℕ → Except Unit (List BusStop))
    (fetchStop : ℕ → Except Unit (Option BusStop)) (loc : LiveLoc) : LiveLoc :=
  match loc.currentRouteId with
  | none => loc
  | some rid =>
    match stopsOfRoute rid with
    | Except.error _ => loc
    | Except.ok stops =>
      match findNextStop m stops loc.latitude loc.longitude with
      | none => loc
      | some nextStop =>
        updateETA m now fetchStop { loc with nextStopId := some nextStop.id }

/-- A row of the `buses` table (the fields the location controller reads). -/
structure BusRec where
  id : ℕ
  driverId : Option ℕ
  isActive : Bool
  currentRouteId : Option ℕ
deriving DecidableEq

/-- `trip_logs.status`. -/
inductive TripStatus where
  | active
  | completed
  | cancelled
deriving DecidableEq

/-- A row of the `trip_logs` table (the fields the location controller
touches).  `route_id` is `allowNull: false` in the model, so a stored row
always carries a route. -/
structure TripLogRec where
  id : ℕ
  busId : ℕ
  driverId : ℕ
  routeId : ℕ
  startedAt : ℚ
  endedAt : Option ℚ
  status : TripStatus
deriving DecidableEq

/-- A row of the append-only `location_history` table.  `trip_log_id` is
`allowNull: false` in the model; `tripLogId` is `Option` here only to express
the value an insert ATTEMPTS to write — `historyCreate` rejects `none`, as
Sequelize's notNull validation does. -/
structure HistoryRec where
  tripLogId : Option ℕ
  busId : ℕ
  latitude : ℚ
  longitude : ℚ
  speedKmh : ℚ
  heading : Option ℚ
  accuracyMeters : Option ℚ
deriving DecidableEq

/-- The persistent state the location controller operates on.  `routes` is the
set of existing route ids; `nextId` generates fresh primary keys. -/
structure Db where
  buses : List BusRec
  routes : List ℕ
  liveLocations : List LiveLoc
  tripLogs : List TripLogRec
  history : List HistoryRec
  nextId : ℕ
deriving DecidableEq

/-- The error responses of the location controller.  `internalError` is the
generic 500 a handler's catch answers when a database write throws an error
it does not translate specially (e.g. a notNull validation failure). -/
inductive ApiError where
  | busNotFound
  | accessDenied
  | busInactive
  | alreadySharing
  | routeNotFound
  | duplicateEntry
  | notSharing
  | notActive
  | internalError
deriving DecidableEq

/-- Delivery scope of a socket emission: `emitToAll` versus
`emitToBusSubscribers`. -/
inductive Scope where
  | all
  | bus (busId : ℕ)
deriving DecidableEq

/-- One socket emission performed by a controller operation. -/
structure Emitted where
  event : String
  scope : Scope
deriving DecidableEq

/-- Outcome of one controller operation: the resulting persistent state, the
HTTP-level error if any (`none` is success), the trip id on a successful
start, and the socket events emitted. -/
structure OpResult where
  db : Db
  error : Option ApiError
  tripId : Option ℕ
  events : List Emitted
deriving DecidableEq

/-- `LiveBusLocation.findByBusId(busId)`: the one row for the bus, filtered on
`isLocationSharing: true` (LiveBusLocation.js lines 256-274). -/
def findByBusId (db : Db) (busId : ℕ) : Option LiveLoc :=
  db.liveLocations.find? (fun l => l.busId == busId && l.isLocationSharing)

/-- `startLocationSharing` (the location controller, part_001 lines 170-301).
Checks run in source order: bus exists, driver assignment, bus active, no
active sharing session, route exists; then `TripLog.create`, then
`LiveBusLocation.create`.  Because `live_bus_locations.bus_id` carries a
unique index and the row of a finished session is left in place, the `create`
throws `SequelizeUniqueConstraintError` whenever any row for the bus already
exists; the catch answers 400 'Duplicate entry' — after the trip log was
already inserted.  When neither a route argument nor a bus route exists,
`TripLog.create` itself violates `trip_logs.route_id`'s `allowNull: false`
and the handler answers a generic 500. -/
def startLocationSharing (db : Db) (userId busId : ℕ) (routeId : Option ℕ)
    (now : ℚ) : OpResult :=
  match db.buses.find? (fun b => b.id == busId) with
  | none => ⟨db, some ApiError.busNotFound, none, []⟩
  | some bus =>
    if bus.driverId ≠ some userId then ⟨db, some ApiError.accessDenied, none, []⟩
    else if !bus.isActive then ⟨db, some ApiError.busInactive, none, []⟩
    else if (findByBusId db busId).elim false (fun l => l.isLocationSharing) then
      ⟨db, some ApiError.alreadySharing, none, []⟩
    else
      let finalRouteId := routeId.orElse (fun _ => bus.currentRouteId)
      if finalRouteId.elim false (fun rid => !db.routes.contains rid) then
        ⟨db, some ApiError.routeNotFound, none, []⟩
      else
        match finalRouteId with
        | none => ⟨db, some ApiError.internalError, none, []⟩
        | some rid2 =>
        let tripId := db.nextId
        let trip : TripLogRec :=
          ⟨tripId, busId, userId, rid2, now, none, TripStatus.active⟩
        let db1 := { db with
          tripLogs := db.tripLogs ++ [trip], nextId := db.nextId + 1 }
        if db1.liveLocations.any (fun l => l.busId == busId) then
          ⟨db1, some ApiError.duplicateEntry, none, []⟩
        else
          let loc : LiveLoc :=
            { busId := busId, driverId := userId, latitude := 0, longitude := 0
              speedKmh := none, heading := none, accuracyMeters := none
              isLocationSharing := true, currentRouteId := finalRouteId
              nextStopId := none, distanceToNextStop := none
              etaToNextStop := none, tripStartedAt := some now }
          let db2 := { db1 with liveLocations := db1.liveLocations ++ [loc] }
          let db3 :=
            if routeId.isSome ∧ routeId ≠ bus.currentRouteId then
              { db2 with buses := db2.buses.map (fun b =>
                  if b.id == busId then { b with currentRouteId := routeId }
                  else b) }
            else db2
          ⟨db3, none, some tripId, [⟨"locationSharingStarted", Scope.all⟩]⟩

/-- `stopLocationSharing` (part_001 lines 306-366): clears the sharing flag of
the bus's row (the row itself persists), completes the active trip, emits
`locationSharingStopped` to all. -/
def stopLocationSharing (db : Db) (userId busId : ℕ) (now : ℚ) : OpResult :=
  match db.buses.find? (fun b => b.id == busId) with
  | none => ⟨db, some ApiError.accessDenied, none, []⟩
  | some bus =>
    if bus.driverId ≠ some userId then ⟨db, some ApiError.accessDenied, none, []⟩
    else
      let location := findByBusId db busId
      let activeTrip := db.tripLogs.find? (fun t =>
        t.busId == busId && t.driverId == userId && t.status == TripStatus.active)
      if location.elim true (fun l => !l.isLocationSharing) then
        ⟨db, some ApiError.notSharing, none, []⟩
      else
        let db1 := { db with liveLocations := db.liveLocations.map (fun l =>
          if l.busId == busId && l.isLocationSharing then
            { l with isLocationSharing := false }
          else l) }
        let db2 :=
          match activeTrip with
          | none => db1
          | some trip =>
            { db1 with tripLogs := db1.tripLogs.map (fun t =>
                if t.id == trip.id then
                  { t with endedAt := some now, status := TripStatus.completed }
                else t) }
        ⟨db2, none, none, [⟨"locationSharingStopped", Scope.all⟩]⟩

/-- The attribute object passed to `LiveBusLocation.updateLocation` by the
controller's `updateLocation` handler. -/
structure LocUpdate where
  latitude : ℚ
  longitude : ℚ
  speedKmh : ℚ
  heading : Option ℚ
  accuracyMeters : Option ℚ
  driverId : ℕ
  currentRouteId : Option ℕ
  isLocationSharing : Bool
deriving DecidableEq

/-- The field updates the upsert applies to an existing row.  Columns not in
the attribute object (`nextStopId`, `distanceToNextStop`, `etaToNextStop`,
`tripStartedAt`) keep their stored values. -/
def applyUpsert (loc : LiveLoc) (u : LocUpdate) : LiveLoc :=
  { loc with
      latitude := u.latitude, longitude := u.longitude
      speedKmh := some u.speedKmh, heading := u.heading
      accuracyMeters := u.accuracyMeters, driverId := u.driverId
      currentRouteId := u.currentRouteId
      isLocationSharing := u.isLocationSharing }

/-- `LiveBusLocation.updateLocation(busId, locationData)` (LiveBusLocation.js
lines 276-291): upsert keyed by the unique `bus_id`; only when the row already
existed (`!created`) are `updateNextStop` and `save` run afterwards. -/
def storeUpdateLocation (m : JsMath) (now : ℚ)
    (stopsOfRoute : ℕ → Except Unit (List BusStop))
    (fetchStop : ℕ → Except Unit (Option BusStop))
    (db : Db) (busId : ℕ) (u : LocUpdate) : Db :=
  if db.liveLocations.any (fun l => l.busId == busId) then
    { db with liveLocations := db.liveLocations.map (fun l =>
        if l.busId == busId then
          updateNextStop m now stopsOfRoute fetchStop (applyUpsert l u)
        else l) }
  else
    let loc : LiveLoc :=
      { busId := busId, driverId := u.driverId, latitude := u.latitude
        longitude := u.longitude, speedKmh := some u.speedKmh
        heading := u.heading, accuracyMeters := u.accuracyMeters
        isLocationSharing := u.isLocationSharing
        currentRouteId := u.currentRouteId, nextStopId := none
        distanceToNextStop := none, etaToNextStop := none
        tripStartedAt := none }
    { db with liveLocations := db.liveLocations ++ [loc] }

/-- `LocationHistory.create(data)`: the model declares `trip_log_id` with
`allowNull: false`, so an insert attempting to write a null `tripLogId` fails
Sequelize's notNull validation — it throws instead of inserting a row. -/
def historyCreate (db : Db) (h : HistoryRec) : Except Unit Db :=
  if h.tripLogId.isSome then Except.ok { db with history := db.history ++ [h] }
  else Except.error ()

/-- The controller's `updateLocation` handler (part_001 lines 371-459):
requires an active session owned by the caller; persists the position via the
store upsert (with its recompute and save), then calls
`LocationHistory.create({tripLogId: null, ...})` — which always throws the
notNull validation error on `trip_log_id`, so control jumps to the catch and
the handler answers a generic 500 with no history row, after the live-row
write has already been committed (there is no surrounding transaction).  The
second `updateNextStop` call and the `locationUpdate` broadcast sit after the
insert and are therefore never reached on this path; they remain modelled in
the (dead) success branch. -/
def updateLocationFlow (m : JsMath) (now : ℚ)
    (stopsOfRoute : ℕ → Except Unit (List BusStop))
    (fetchStop : ℕ → Except Unit (Option BusStop))
    (db : Db) (userId busId : ℕ) (lat lng : ℚ)
    (speedKmh heading accuracyMeters : Option ℚ) : OpResult :=
  match findByBusId db busId with
  | none => ⟨db, some ApiError.notActive, none, []⟩
  | some location =>
    if location.driverId ≠ userId then ⟨db, some ApiError.accessDenied, none, []⟩
    else
      let u : LocUpdate :=
        { latitude := lat, longitude := lng
          speedKmh := speedKmh.getD 0, heading := heading
          accuracyMeters := accuracyMeters, driverId := userId
          currentRouteId := location.currentRouteId
          isLocationSharing := true }
      let db1 := storeUpdateLocation m now stopsOfRoute fetchStop db busId u
      match historyCreate db1
        ⟨none, busId, lat, lng, speedKmh.getD 0, heading, accuracyMeters⟩ with
      | Except.error _ => ⟨db1, some ApiError.internalError, none, []⟩
      | Except.ok db2 => ⟨db2, none, none, [⟨"locationUpdate", Scope.all⟩]⟩

/-- The socket service's mutable maps: `connectedUsers` (socket id → user id)
and `busSubscribers` (bus id → set of socket ids).  JavaScript `Set`s are
modelled as duplicate-free lists: `add` appends only when absent, `delete`
removes the element. -/
structure SocketState where
  connectedUsers : List (ℕ × ℕ)
  busSubscribers : List (ℕ × List ℕ)
deriving DecidableEq

/-- `subscribeToBus(socket, busId)` (part_003 lines 73-94): create the bus's
subscriber set if missing, then add the socket. -/
def subscribeToBus (ss : SocketState) (sid busId : ℕ) : SocketState :=
  match ss.busSubscribers.lookup busId with
  | none => { ss with busSubscribers := ss.busSubscribers ++ [(busId, [sid])] }
  | some subs =>
    if subs.contains sid then ss
    else
      { ss with busSubscribers := ss.busSubscribers.map (fun p =>
          if p.1 == busId then (p.1, p.2 ++ [sid]) else p) }

/-- `unsubscribeFromBus(socket, busId)` (part_003 lines 96-113): remove the
socket from the bus's set, dropping the set when it becomes empty. -/
def unsubscribeFromBus (ss : SocketState) (sid busId : ℕ) : SocketState :=
  match ss.busSubscribers.lookup busId with
  | none => ss
  | some subs =>
    let subs2 := subs.filter (fun x => x != sid)
    if subs2.isEmpty then
      { ss with busSubscribers := ss.busSubscribers.filter (fun p => p.1 != busId) }
    else
      { ss with busSubscribers := ss.busSubscribers.map (fun p =>
          if p.1 == busId then (p.1, subs2) else p) }

/-- `handleDisconnect(socket)` (part_003 lines 170-185): drop the socket from
`connectedUsers` and from every bus's subscriber set, pruning sets that become
empty. -/
def handleDisconnect (ss : SocketState) (sid : ℕ) : SocketState :=
  { connectedUsers := ss.connectedUsers.filter (fun p => p.1 != sid)
    busSubscribers := ss.busSubscribers.filterMap (fun p =>
      if p.2.contains sid then
        let remaining := p.2.filter (fun x => x != sid)
        if remaining.isEmpty then none else some (p.1, remaining)
      else some p) }

/-- The delivery set of one emission.  `io` is the list of currently connected
socket ids.  `emitToAll` (part_003 lines 187-192) is `io.emit`: every
connected socket, the subscriber maps untouched.  `emitToBusSubscribers`
(lines 195-205) delivers to the bus's subscribers that are still connected. -/
def recipients (io : List ℕ) (ss : SocketState) : Scope → List ℕ
  | Scope.all => io
  | Scope.bus b =>
    ((ss.busSubscribers.lookup b).getD []).filter (fun sid => io.contains sid)

/-- The haversine intermediate `a` of `calculateDistance` (the quantity the
source binds to `a` before taking `atan2`). -/
def hav (m : JsMath) (coord1 coord2 : Coord) : ℚ :=
  m.sin (toRadians m (coord2.lat - coord1.lat) / 2) *
      m.sin (toRadians m (coord2.lat - coord1.lat) / 2) +
    m.cos (toRadians m coord1.lat) * m.cos (toRadians m coord2.lat) *
      (m.sin (toRadians m (coord2.lng - coord1.lng) / 2) *
        m.sin (toRadians m (coord2.lng - coord1.lng) / 2))

/-- The claimed invariant on a LiveLocation row (spec section 3): the stored
ETA is null whenever the stored speed is unknown or zero, or the next-stop
reference is unset. -/
def etaNullInvariant (loc : LiveLoc) : Prop :=
  (loc.speedKmh = none ∨ loc.speedKmh = some 0 ∨ loc.nextStopId = none) →
    loc.etaToNextStop = none

instance (loc : LiveLoc) : Decidable (etaNullInvariant loc) := by
  unfold etaNullInvariant; infer_instance

/-- A trivial model of the math primitives (everything zero), used to
evaluate the embedding on concrete inputs. -/
def mathZero : JsMath :=
  { sin := fun _ => 0, cos := fun _ => 0, sqrt := fun _ => 0
    atan2 := fun _ _ => 0, pi := 0 }

/-- Concrete bus: id 1, assigned driver 7, active, on route 5. -/
def busA : BusRec := ⟨1, some 7, true, some 5⟩

/-- Concrete initial state: bus 1 exists, route 5 exists, no live rows. -/
def db0 : Db := ⟨[busA], [5], [], [], [], 100⟩

/-- A concrete live row mid-session: positive speed, a next stop and a
computed (non-null) ETA — a state the invariant `etaNullInvariant` allows. -/
def preLoc2 : LiveLoc :=
  { busId := 1, driverId := 7, latitude := 0, longitude := 0
    speedKmh := some 10, heading := none, accuracyMeters := none
    isLocationSharing := true, currentRouteId := some 5
    nextStopId := some 9, distanceToNextStop := some 500
    etaToNextStop := some 99999, tripStartedAt := some 1000 }

/-- Concrete state holding `preLoc2`. -/
def dbPre2 : Db := ⟨[busA], [5], [preLoc2], [], [], 101⟩

/-- Stop query that succeeds with an empty stop list (route without stops). -/
def stopsEmptyOk : ℕ → Except Unit (List BusStop) := fun _ => Except.ok []

/-- Stop query that throws (a database error in `BusStop.findNextStop`). -/
def stopsErr : ℕ → Except Unit (List BusStop) := fun _ => Except.error ()

/-- `findByPk` returning no row. -/
def fetchStopNone : ℕ → Except Unit (Option BusStop) := fun _ => Except.ok none

/-- A concrete live row for the C6 scenario, with a previously computed ETA. -/
def preLoc6 : LiveLoc :=
  { busId := 1, driverId := 7, latitude := 50, longitude := 60
    speedKmh := some 30, heading := some 90, accuracyMeters := some 5
    isLocationSharing := true, currentRouteId := some 5
    nextStopId := some 9, distanceToNextStop := some 800
    etaToNextStop := some 7777, tripStartedAt := some 1000 }

/-- Concrete state holding `preLoc6`. -/
def dbPre6 : Db := ⟨[busA], [5], [preLoc6], [], [], 101⟩

/-- A concrete bus stop used to instantiate the stop-locator theorems. -/
def stopA : BusStop := ⟨9, "Gate", 1, 0, 1, 5⟩

/-- A concrete socket-service state: socket 1 (user 10) connected and
subscribed to bus 2 alongside socket 3. -/
def ss0 : SocketState := ⟨[(1, 10)], [(2, [1, 3])]⟩

/-! ## Theorems -/

lemma calculateDistance_eq_hav (m : JsMath) (c1 c2 : Coord) :
    calculateDistance m c1 c2 =
      6371 * (2 * m.atan2 (m.sqrt (hav m c1 c2)) (m.sqrt (1 - hav m c1 c2))) := rfl

lemma hav_symm (m : JsMath) (hodd : ∀ x, m.sin (-x) = -(m.sin x))
    (c1 c2 : Coord) : hav m c1 c2 = hav m c2 c1 := by
  unfold hav toRadians
  have h1 : (c1.lat - c2.lat) * (m.pi / 180) / 2 =
      -((c2.lat - c1.lat) * (m.pi / 180) / 2) := by ring
  have h2 : (c1.lng - c2.lng) * (m.pi / 180) / 2 =
      -((c2.lng - c1.lng) * (m.pi / 180) / 2) := by ring
  rw [h1, h2, hodd, hodd]
  ring

/-- C10: the haversine distance function of the ETA calculator is symmetric,
and the distance from a coordinate to itself is 0, for any model of the math
primitives in which sine is odd (hence sin 0 = 0 follows for symmetry; the
self-distance additionally uses sqrt 0 = 0 and atan2 0 (sqrt 1) = 0, which
hold of the JavaScript `Math` functions). -/
theorem calculateDistance_symm_and_self (m : JsMath)
    (hodd : ∀ x, m.sin (-x) = -(m.sin x))
    (hsin0 : m.sin 0 = 0) (hsqrt0 : m.sqrt 0 = 0)
    (hatan : m.atan2 0 (m.sqrt 1) = 0) :
    (∀ a b : Coord, calculateDistance m a b = calculateDistance m b a) ∧
    (∀ a : Coord, calculateDistance m a a = 0) := by
  constructor
  · intro a b
    rw [calculateDistance_eq_hav, calculateDistance_eq_hav, hav_symm m hodd]
  · intro a
    have hz : hav m a a = 0 := by
      unfold hav toRadians
      have h1 : (a.lat - a.lat) * (m.pi / 180) / 2 = 0 := by ring
      have h2 : (a.lng - a.lng) * (m.pi / 180) / 2 = 0 := by ring
      rw [h1, h2, hsin0]
      ring
    rw [calculateDistance_eq_hav, hz]
    norm_num [hsqrt0, hatan]

/-- Witness for C10 at a concrete math model and concrete coordinates. -/
theorem calculateDistance_symm_and_self_witness :
    calculateDistance mathZero ⟨1, 2⟩ ⟨3, 4⟩ = calculateDistance mathZero ⟨3, 4⟩ ⟨1, 2⟩ ∧
    calculateDistance mathZero ⟨1, 2⟩ ⟨1, 2⟩ = 0 := by
  have h := calculateDistance_symm_and_self mathZero
    (by intro x; simp [mathZero]) (by simp [mathZero]) (by simp [mathZero])
    (by simp [mathZero])
  exact ⟨h.1 ⟨1, 2⟩ ⟨3, 4⟩, h.2 ⟨1, 2⟩⟩

/-- C7: whenever the bus and the stop are less than 100 meters apart
(haversine distance below 0.1 km), `estimateTimeToStop` returns the fixed
1-minute, "arriving", high-confidence result, whatever the current speed and
speed samples are — the weighted computation is bypassed. -/
theorem estimateTimeToStop_arriving (m : JsMath) (now : ℚ)
    (busLocation stopLocation : Coord) (currentSpeed : ℚ)
    (recentSpeeds : List ℚ)
    (h : calculateDistance m busLocation stopLocation < 1/10) :
    estimateTimeToStop m now busLocation stopLocation currentSpeed recentSpeeds =
      { eta := some (now + 60 * 1000)
        durationMinutes := 1
        distanceKm := some (calculateDistance m busLocation stopLocation)
        speedKmh := none
        isRealtime := true
        confidence := Confidence.high
        status := some "arriving" } := by
  unfold estimateTimeToStop
  rw [if_pos h]

/-- Witness for C7: with the trivial math model the distance is 0 < 0.1, so a
concrete call returns the fixed arriving result regardless of the (nonzero)
speed samples supplied. -/
theorem estimateTimeToStop_arriving_witness :
    estimateTimeToStop mathZero 500 ⟨1, 2⟩ ⟨3, 4⟩ 80 [90, 100] =
      { eta := some (500 + 60 * 1000)
        durationMinutes := 1
        distanceKm := some (calculateDistance mathZero ⟨1, 2⟩ ⟨3, 4⟩)
        speedKmh := none
        isRealtime := true
        confidence := Confidence.high
        status := some "arriving" } :=
  estimateTimeToStop_arriving mathZero 500 ⟨1, 2⟩ ⟨3, 4⟩ 80 [90, 100]
    (by norm_num [calculateDistance, toRadians, mathZero])

/-- C3, counterexample: with positive distance and no speed samples the
estimator does fall back to the assumed 25 km/h, but the returned confidence
is 'high' (the confidence test `speedKmh > 5` is evaluated on the substituted
fallback speed 25), not a downgraded value as claimed. -/
theorem calculateSmoothedETA_fallback_confidence_high :
    (calculateSmoothedETA 0 [] 1).speedKmh = some 25 ∧
    (calculateSmoothedETA 0 [] 1).confidence = Confidence.high := by
  norm_num [calculateSmoothedETA, calculateETA, jsRound]

/-- C3 as amended: with positive distance, when no sample survives the
(0, 120) filter (in particular for an empty sample list) the estimator falls
back to the assumed average speed of 25 km/h — the result equals a plain
`calculateETA` at 25 km/h, the reported speed is 25 — and the returned
confidence is 'high' (not a downgraded value). -/
theorem calculateSmoothedETA_fallback (now d : ℚ) (samples : List ℚ)
    (hd : 0 < d) (hinv : ∀ s ∈ samples, ¬(0 < s ∧ s < 120)) :
    calculateSmoothedETA now samples d = calculateETA now d 25 ∧
    (calculateSmoothedETA now samples d).speedKmh = some 25 ∧
    (calculateSmoothedETA now samples d).confidence = Confidence.high := by
  have hz : calculateETA now d 0 = calculateETA now d 25 := by
    unfold calculateETA
    rw [if_neg (not_le.mpr hd), if_neg (not_le.mpr hd)]
    norm_num
  have hmain : calculateSmoothedETA now samples d = calculateETA now d 0 := by
    unfold calculateSmoothedETA
    by_cases he : samples.isEmpty
    · rw [if_pos (Or.inl he)]
    · rw [if_neg (by simp [he, ne_of_gt hd])]
      have hfe : (samples.filter fun s => decide (0 < s ∧ s < 120)) = [] := by
        rw [List.filter_eq_nil_iff]
        intro a ha
        simpa using hinv a ha
      simp only [hfe]
      rw [if_pos List.isEmpty_nil]
  have hfields : (calculateETA now d 25).speedKmh = some 25 ∧
      (calculateETA now d 25).confidence = Confidence.high := by
    unfold calculateETA
    rw [if_neg (not_le.mpr hd)]
    norm_num [jsRound]
  exact ⟨hmain.trans hz, by rw [hmain, hz]; exact hfields.1,
    by rw [hmain, hz]; exact hfields.2⟩

/-- Witness for C3's amended statement at distance 1 km, empty samples. -/
theorem calculateSmoothedETA_fallback_witness :
    calculateSmoothedETA 0 [] 1 = calculateETA 0 1 25 ∧
    (calculateSmoothedETA 0 [] 1).speedKmh = some 25 ∧
    (calculateSmoothedETA 0 [] 1).confidence = Confidence.high :=
  calculateSmoothedETA_fallback 0 1 [] (by norm_num) (by simp)

lemma weightedSums_eq (l : List ℚ) : ∀ i : ℕ,
    weightedSums l i =
      (((l.enumFrom i).map (fun p => p.2 * ((p.1 : ℚ) + 1))).sum,
       ((l.enumFrom i).map (fun p => ((p.1 : ℚ) + 1))).sum) := by
  induction l with
  | nil => intro i; simp [weightedSums]
  | cons s rest ih =>
    intro i
    simp only [weightedSums, List.enumFrom, List.map_cons, List.sum_cons,
      ih (i + 1), Prod.mk.injEq]

/-- C5: on a non-empty list of valid samples (each strictly between 0 and
120 km/h) and nonzero distance, the estimator's smoothed speed is exactly the
linearly recency-weighted average Σ(speed·weight)/Σ(weight) with the i-th
sample (1-indexed, oldest first) weighted i — the whole result equals
`calculateETA` at that average — and on [10, 20, 30] the average is 140/6. -/
theorem calculateSmoothedETA_weighted (now d : ℚ) (samples : List ℚ)
    (hne : samples ≠ []) (hv : ∀ s ∈ samples, 0 < s ∧ s < 120) (hd : d ≠ 0) :
    calculateSmoothedETA now samples d =
      calculateETA now d (specWeightedAverage samples) ∧
    specWeightedAverage [10, 20, 30] = 140 / 6 := by
  constructor
  · have hfilter : (samples.filter fun s => decide (0 < s ∧ s < 120)) = samples := by
      rw [List.filter_eq_self]
      intro a ha
      simpa using hv a ha
    have he : samples.isEmpty = false := by
      simpa [List.isEmpty_iff] using hne
    unfold calculateSmoothedETA
    rw [if_neg (by simp [he, hd])]
    simp only [hfilter]
    rw [if_neg (by simp [he])]
    rw [weightedSums_eq samples 0]
    rfl
  · norm_num [specWeightedAverage, List.enum, List.enumFrom]

/-- Witness for C5 at the specification's own example [10, 20, 30]. -/
theorem calculateSmoothedETA_weighted_witness :
    calculateSmoothedETA 0 [10, 20, 30] 1 =
      calculateETA 0 1 (specWeightedAverage [10, 20, 30]) ∧
    specWeightedAverage [10, 20, 30] = 140 / 6 :=
  calculateSmoothedETA_weighted 0 1 [10, 20, 30] (by simp)
    (by norm_num) (by norm_num)

/-- Full characterisation of the scan of `BusStop.findNextStop`, generalised
over the accumulator so that induction goes through: provided the accumulator
(if set) records a true distance above the floor for a stop ordered before
every remaining stop, and the remaining stops are strictly sorted by
`stopOrder`, the scan returns `none` exactly when it started empty and no stop
is beyond the 100 m floor, and otherwise returns a best candidate: a true
above-floor distance, minimal among remaining candidates with ties resolved
toward the accumulator / earlier stops. -/
lemma findNextStopGo_spec (dist : BusStop → ℚ) :
    ∀ (stops : List BusStop) (acc : Option (BusStop × ℚ)),
      (∀ b mm, acc = some (b, mm) → mm = dist b ∧ 100 < mm ∧
        ∀ t ∈ stops, b.stopOrder < t.stopOrder) →
      List.Pairwise (fun a b => a.stopOrder < b.stopOrder) stops →
      ((findNextStopGo dist stops acc = none ↔
          acc = none ∧ ∀ s ∈ stops, dist s ≤ 100) ∧
        (∀ b2 m2, findNextStopGo dist stops acc = some (b2, m2) →
          m2 = dist b2 ∧ 100 < m2 ∧
          (b2 ∈ stops ∨ acc = some (b2, m2)) ∧
          (∀ t ∈ stops, 100 < dist t → m2 ≤ dist t ∧
            (dist t = m2 → b2.stopOrder ≤ t.stopOrder)) ∧
          (∀ b mm, acc = some (b, mm) → m2 ≤ mm ∧ (m2 = mm → b2 = b))))
  | [], acc, hacc, _ => by
    constructor
    · simp [findNextStopGo]
    · intro b2 m2 h
      simp only [findNextStopGo] at h
      obtain ⟨hm, h100, _⟩ := hacc b2 m2 h
      refine ⟨hm, h100, Or.inr h, by simp, ?_⟩
      intro b mm hbm
      have heq := h.symm.trans hbm
      simp only [Option.some.injEq, Prod.mk.injEq] at heq
      exact ⟨le_of_eq heq.2, fun _ => heq.1⟩
  | s :: rest, acc, hacc, hpair => by
    rw [List.pairwise_cons] at hpair
    obtain ⟨hs_lt, hpair_rest⟩ := hpair
    cases acc with
    | none =>
      by_cases hcond : 100 < dist s
      · have hstep : findNextStopGo dist (s :: rest) none =
            findNextStopGo dist rest (some (s, dist s)) := by
          simp [findNextStopGo, hcond]
        have hacc2 : ∀ b mm, (some (s, dist s) : Option (BusStop × ℚ)) = some (b, mm) →
            mm = dist b ∧ 100 < mm ∧ ∀ t ∈ rest, b.stopOrder < t.stopOrder := by
          intro b mm h
          simp only [Option.some.injEq, Prod.mk.injEq] at h
          exact h.1 ▸ h.2 ▸ ⟨rfl, hcond, hs_lt⟩
        have ihr := findNextStopGo_spec dist rest (some (s, dist s)) hacc2 hpair_rest
        constructor
        · rw [hstep]
          constructor
          · intro h
            exact absurd (ihr.1.mp h).1 (by simp)
          · intro h
            exact absurd (h.2 s (List.mem_cons_self s rest)) (not_le.mpr hcond)
        · intro b2 m2 h
          rw [hstep] at h
          obtain ⟨hm, h100, hmem, hmin, htrack⟩ := ihr.2 b2 m2 h
          refine ⟨hm, h100, ?_, ?_, by simp⟩
          · rcases hmem with hmem | hmem
            · exact Or.inl (List.mem_cons_of_mem s hmem)
            · simp only [Option.some.injEq, Prod.mk.injEq] at hmem
              exact Or.inl (hmem.1 ▸ List.mem_cons_self s rest)
          · intro t ht h100t
            rcases List.mem_cons.mp ht with rfl | ht
            · obtain ⟨hle, htie⟩ := htrack t (dist t) rfl
              exact ⟨hle, fun heq => (htie heq.symm) ▸ le_refl _⟩
            · exact hmin t ht h100t
      · have hstep : findNextStopGo dist (s :: rest) none =
            findNextStopGo dist rest none := by
          simp [findNextStopGo, hcond]
        have ihr := findNextStopGo_spec dist rest none (by simp) hpair_rest
        constructor
        · rw [hstep, ihr.1]
          constructor
          · rintro ⟨-, hall⟩
            refine ⟨rfl, ?_⟩
            intro x hx
            rcases List.mem_cons.mp hx with rfl | hx
            · exact not_lt.mp hcond
            · exact hall x hx
          · rintro ⟨-, hall⟩
            exact ⟨rfl, fun x hx => hall x (List.mem_cons_of_mem s hx)⟩
        · intro b2 m2 h
          rw [hstep] at h
          obtain ⟨hm, h100, hmem, hmin, -⟩ := ihr.2 b2 m2 h
          refine ⟨hm, h100, ?_, ?_, by simp⟩
          · rcases hmem with hmem | hmem
            · exact Or.inl (List.mem_cons_of_mem s hmem)
            · exact absurd hmem (by simp)
          · intro t ht h100t
            rcases List.mem_cons.mp ht with rfl | ht
            · exact absurd h100t hcond
            · exact hmin t ht h100t
    | some pair =>
      obtain ⟨b0, m0⟩ := pair
      obtain ⟨hm0, h100m0, hord0⟩ := hacc b0 m0 rfl
      by_cases hcond : dist s < m0 ∧ 100 < dist s
      · have hstep : findNextStopGo dist (s :: rest) (some (b0, m0)) =
            findNextStopGo dist rest (some (s, dist s)) := by
          simp [findNextStopGo, hcond]
        have hacc2 : ∀ b mm, (some (s, dist s) : Option (BusStop × ℚ)) = some (b, mm) →
            mm = dist b ∧ 100 < mm ∧ ∀ t ∈ rest, b.stopOrder < t.stopOrder := by
          intro b mm h
          simp only [Option.some.injEq, Prod.mk.injEq] at h
          exact h.1 ▸ h.2 ▸ ⟨rfl, hcond.2, hs_lt⟩
        have ihr := findNextStopGo_spec dist rest (some (s, dist s)) hacc2 hpair_rest
        constructor
        · constructor
          · intro h
            rw [hstep] at h
            exact absurd (ihr.1.mp h).1 (by simp)
          · rintro ⟨h, -⟩
            exact absurd h (by simp)
        · intro b2 m2 h
          rw [hstep] at h
          obtain ⟨hm, h100, hmem, hmin, htrack⟩ := ihr.2 b2 m2 h
          refine ⟨hm, h100, ?_, ?_, ?_⟩
          · rcases hmem with hmem | hmem
            · exact Or.inl (List.mem_cons_of_mem s hmem)
            · simp only [Option.some.injEq, Prod.mk.injEq] at hmem
              exact Or.inl (hmem.1 ▸ List.mem_cons_self s rest)
          · intro t ht h100t
            rcases List.mem_cons.mp ht with rfl | ht
            · obtain ⟨hle, htie⟩ := htrack t (dist t) rfl
              exact ⟨hle, fun heq => (htie heq.symm) ▸ le_refl _⟩
            · exact hmin t ht h100t
          · intro b mm hbm
            simp only [Option.some.injEq, Prod.mk.injEq] at hbm
            obtain ⟨hle, -⟩ := htrack s (dist s) rfl
            have hlt : m2 < mm := hbm.2 ▸ lt_of_le_of_lt hle hcond.1
            exact ⟨le_of_lt hlt, fun heq => absurd heq (ne_of_lt hlt)⟩
      · have hstep : findNextStopGo dist (s :: rest) (some (b0, m0)) =
            findNextStopGo dist rest (some (b0, m0)) := by
          simp only [findNextStopGo]
          rw [if_neg hcond]
        have hacc2 : ∀ b mm, (some (b0, m0) : Option (BusStop × ℚ)) = some (b, mm) →
            mm = dist b ∧ 100 < mm ∧ ∀ t ∈ rest, b.stopOrder < t.stopOrder := by
          intro b mm h
          simp only [Option.some.injEq, Prod.mk.injEq] at h
          exact h.1 ▸ h.2 ▸
            ⟨hm0, h100m0, fun t ht => hord0 t (List.mem_cons_of_mem s ht)⟩
        have ihr := findNextStopGo_spec dist rest (some (b0, m0)) hacc2 hpair_rest
        constructor
        · constructor
          · intro h
            rw [hstep] at h
            exact absurd (ihr.1.mp h).1 (by simp)
          · rintro ⟨h, -⟩
            exact absurd h (by simp)
        · intro b2 m2 h
          rw [hstep] at h
          obtain ⟨hm, h100, hmem, hmin, htrack⟩ := ihr.2 b2 m2 h
          refine ⟨hm, h100, ?_, ?_, ?_⟩
          · rcases hmem with hmem | hmem
            · exact Or.inl (List.mem_cons_of_mem s hmem)
            · exact Or.inr hmem
          · intro t ht h100t
            rcases List.mem_cons.mp ht with rfl | ht
            · have hnotlt : ¬ dist t < m0 := fun hl => hcond ⟨hl, h100t⟩
              obtain ⟨hle, htie⟩ := htrack b0 m0 rfl
              refine ⟨le_trans hle (not_lt.mp hnotlt), ?_⟩
              intro heq
              have hm0m2 : m0 = m2 := le_antisymm
                (by rw [← heq]; exact not_lt.mp hnotlt) (heq ▸ hle)
              have hb2 : b2 = b0 := htie hm0m2.symm
              exact le_of_lt (hb2 ▸ hord0 t (List.mem_cons_self t rest))
            · exact hmin t ht h100t
          · intro b mm hbm
            simp only [Option.some.injEq, Prod.mk.injEq] at hbm
            exact hbm.1 ▸ hbm.2 ▸ htrack b0 m0 rfl

/-- C4: on a stop list strictly sorted by `stopOrder` (the database order with
the per-route uniqueness of `stop_order`), `findNextStop` returns `none`
exactly when no stop lies strictly beyond the 100 m floor (in particular for
an empty route), and otherwise returns a stop beyond the floor whose distance
is minimal among the stops beyond the floor, exact distance ties being
resolved toward the lowest stop order. -/
theorem findNextStop_spec (m : JsMath) (stops : List BusStop) (lat lng : ℚ)
    (hsort : List.Pairwise (fun a b => a.stopOrder < b.stopOrder) stops) :
    ((findNextStop m stops lat lng = none ↔
        ∀ s ∈ stops, BusStop.calcDistanceTo m s lat lng ≤ 100) ∧
      (∀ s, findNextStop m stops lat lng = some s →
        s ∈ stops ∧ 100 < BusStop.calcDistanceTo m s lat lng ∧
        ∀ t ∈ stops, 100 < BusStop.calcDistanceTo m t lat lng →
          BusStop.calcDistanceTo m s lat lng ≤ BusStop.calcDistanceTo m t lat lng ∧
          (BusStop.calcDistanceTo m t lat lng = BusStop.calcDistanceTo m s lat lng →
            s.stopOrder ≤ t.stopOrder))) := by
  have hgo := findNextStopGo_spec (fun x => BusStop.calcDistanceTo m x lat lng)
    stops none (by simp) hsort
  unfold findNextStop
  by_cases hle : stops.isEmpty
  · have hnil : stops = [] := by
      cases stops with
      | nil => rfl
      | cons a l => simp [List.isEmpty] at hle
    subst hnil
    simp
  · rw [if_neg hle]
    constructor
    · rw [Option.map_eq_none', hgo.1]
      simp
    · intro s hs
      rw [Option.map_eq_some'] at hs
      obtain ⟨⟨b2, m2⟩, hgoeq, hfst⟩ := hs
      obtain ⟨hm, h100, hmem, hmin, -⟩ := hgo.2 b2 m2 hgoeq
      have hb2 : b2 = s := hfst
      subst hb2
      have hm2 : m2 = BusStop.calcDistanceTo m b2 lat lng := hm
      refine ⟨?_, hm2 ▸ h100, ?_⟩
      · rcases hmem with hmem | hmem
        · exact hmem
        · exact absurd hmem (by simp)
      · intro t ht h100t
        obtain ⟨h1, h2⟩ := hmin t ht h100t
        exact ⟨hm2 ▸ h1, fun heq => h2 (heq.trans hm2.symm)⟩

/-- Witness for C4: with the trivial math model every distance is 0, within
the floor, so the locator returns `none` on a concrete sorted route. -/
theorem findNextStop_spec_witness :
    findNextStop mathZero [stopA] 0 0 = none :=
  (findNextStop_spec mathZero [stopA] 0 0 (by simp)).1.mpr
    (by
      intro s hs
      rw [List.mem_singleton] at hs
      subst hs
      norm_num [BusStop.calcDistanceTo, calculateDistanceToMeters, toRadians,
        mathZero, stopA])

/-- C9: after `handleDisconnect`, the departed socket is absent from every
bus's subscriber set, whatever the prior state (hence after any prior
sequence of subscribe/unsubscribe operations). -/
theorem handleDisconnect_clean (ss : SocketState) (sid : ℕ) :
    ∀ p ∈ (handleDisconnect ss sid).busSubscribers, sid ∉ p.2 := by
  intro p hp
  simp only [handleDisconnect, List.mem_filterMap] at hp
  obtain ⟨a, ha, hfa⟩ := hp
  by_cases hc : a.2.contains sid
  · rw [if_pos hc] at hfa
    by_cases hemp : (a.2.filter fun x => x != sid).isEmpty
    · rw [if_pos hemp] at hfa
      exact absurd hfa (by simp)
    · rw [if_neg hemp, Option.some.injEq] at hfa
      subst hfa
      intro hmem
      have hx := (List.mem_filter.mp hmem).2
      simp at hx
  · rw [if_neg hc, Option.some.injEq] at hfa
    subst hfa
    intro hmem
    exact hc (by simpa using hmem)

/-- Witness for C9 on a concrete state: socket 1 was subscribed to bus 2
together with socket 3; after its disconnect, bus 2's remaining set is [3]
and does not contain socket 1. -/
theorem handleDisconnect_clean_witness : (1 : ℕ) ∉ ((2 : ℕ), ([3] : List ℕ)).2 :=
  handleDisconnect_clean ss0 1 (2, [3]) (by decide)

/-- C8: the `locationSharingStarted`, `locationSharingStopped` and
`locationUpdate` emissions of the location controller are all made through
`emitToAll` (scope `Scope.all`), and the delivery set of that scope is the
full connected-socket list, independent of the per-bus subscriber map. -/
theorem broadcast_scope_spec :
    (∀ db uid bid rid now e,
      e ∈ (startLocationSharing db uid bid rid now).events → e.scope = Scope.all) ∧
    (∀ db uid bid now e,
      e ∈ (stopLocationSharing db uid bid now).events → e.scope = Scope.all) ∧
    (∀ mm now so fs db uid bid lat lng sp hd acc e,
      e ∈ (updateLocationFlow mm now so fs db uid bid lat lng sp hd acc).events →
        e.scope = Scope.all) ∧
    (∀ io ss ss2, recipients io ss Scope.all = io ∧
      recipients io ss Scope.all = recipients io ss2 Scope.all) := by
  refine ⟨?_, ?_, ?_, fun io ss ss2 => ⟨rfl, rfl⟩⟩
  · intro db uid bid rid now e he
    unfold startLocationSharing at he
    split at he
    · simp at he
    · simp only [apply_ite OpResult.events] at he
      repeat' split at he
      all_goals simp_all
  · intro db uid bid now e he
    unfold stopLocationSharing at he
    split at he
    · simp at he
    · simp only [apply_ite OpResult.events] at he
      repeat' split at he
      all_goals simp_all
  · intro mm now so fs db uid bid lat lng sp hd acc e he
    unfold updateLocationFlow at he
    split at he
    · simp at he
    · simp only [apply_ite OpResult.events] at he
      repeat' split at he
      all_goals simp_all

/-- Witness for C8: the concrete first start emits exactly one event, it is
broadcast-scoped, and the broadcast delivery set on a concrete hub state is
the whole connected list however the subscriber map reads. -/
theorem broadcast_scope_spec_witness :
    (⟨"locationSharingStarted", Scope.all⟩ : Emitted).scope = Scope.all ∧
    recipients [1, 3] ss0 Scope.all = [1, 3] := by
  constructor
  · exact broadcast_scope_spec.1 db0 7 1 none 1000
      ⟨"locationSharingStarted", Scope.all⟩ (by decide)
  · exact (broadcast_scope_spec.2.2.2 [1, 3] ss0 ⟨[], []⟩).1

/-- C1, failing run: the assigned driver (7) of the active bus (1) starts
sharing successfully and stops successfully, but the next `startSharing` —
which the claimed NotSharing → Sharing → NotSharing cycle says must succeed —
fails: the finished session's row still occupies the unique `bus_id` slot, so
the `LiveBusLocation.create` raises the unique-constraint error answered as
'Duplicate entry' (HTTP 400). -/
theorem startSharing_cycle_bug :
    (startLocationSharing db0 7 1 none 1000).error = none ∧
    (stopLocationSharing (startLocationSharing db0 7 1 none 1000).db
      7 1 2000).error = none ∧
    (startLocationSharing
      (stopLocationSharing (startLocationSharing db0 7 1 none 1000).db
        7 1 2000).db
      7 1 none 3000).error = some ApiError.duplicateEntry := by
  decide

/-- C2, failing run over the store write (`LiveBusLocation.updateLocation`,
the persistence step of `reportPosition`; it upserts, recomputes and saves
before the handler's later history-insert failure, and no transaction rolls
it back): `preLoc2` satisfies the claimed ETA invariant (speed 10, next stop
set, ETA set).  The store write for a speed-0 report whose stop search finds
no candidate persists speed 0 together with the old non-null ETA — the stored
row violates the invariant, so the invariant is not preserved.  The update
record is exactly the one the controller builds for that report (speed 0,
route 5 carried over, sharing kept true). -/
theorem etaInvariant_not_preserved :
    etaNullInvariant preLoc2 ∧
    (storeUpdateLocation mathZero 2000 stopsEmptyOk fetchStopNone dbPre2 1
      ⟨0, 0, 0, none, none, 7, some 5, true⟩).liveLocations.map
      (fun l => (l.speedKmh, l.etaToNextStop)) = [(some 0, some 99999)] ∧
    ¬ (∀ l ∈ (storeUpdateLocation mathZero 2000 stopsEmptyOk fetchStopNone dbPre2 1
      ⟨0, 0, 0, none, none, 7, some 5, true⟩).liveLocations,
      etaNullInvariant l) := by
  decide

/-- C6, counterexample to the claim as stated: a position report on an active
session whose next-stop lookup throws (`stopsErr`) leaves the stored ETA at
its previous non-null value 7777 (not degraded to null), appends nothing to
`location_history` (the insert's null `tripLogId` violates NOT NULL and
throws), and the handler answers 500 — so neither the claimed LocationHistory
persistence nor the claimed null-ETA degradation holds. -/
theorem recomputeFailure_keeps_stale_eta :
    (updateLocationFlow mathZero 3000 stopsErr fetchStopNone dbPre6
      7 1 3 4 (some 12) none none).db.history = dbPre6.history ∧
    (updateLocationFlow mathZero 3000 stopsErr fetchStopNone dbPre6
      7 1 3 4 (some 12) none none).error = some ApiError.internalError ∧
    (updateLocationFlow mathZero 3000 stopsErr fetchStopNone dbPre6
      7 1 3 4 (some 12) none none).db.liveLocations.map
      (fun l => l.etaToNextStop) = [some 7777] := by
  decide

lemma updateNextStop_preserves_position (m : JsMath) (now : ℚ)
    (so : ℕ → Except Unit (List BusStop)) (fs : ℕ → Except Unit (Option BusStop))
    (loc : LiveLoc) :
    (updateNextStop m now so fs loc).busId = loc.busId ∧
    (updateNextStop m now so fs loc).latitude = loc.latitude ∧
    (updateNextStop m now so fs loc).longitude = loc.longitude ∧
    (updateNextStop m now so fs loc).speedKmh = loc.speedKmh ∧
    (updateNextStop m now so fs loc).heading = loc.heading ∧
    (updateNextStop m now so fs loc).accuracyMeters = loc.accuracyMeters := by
  unfold updateNextStop updateETA
  repeat' split
  all_goals simp

lemma storeUpdateLocation_history (m : JsMath) (now : ℚ)
    (so : ℕ → Except Unit (List BusStop)) (fs : ℕ → Except Unit (Option BusStop))
    (db : Db) (bid : ℕ) (u : LocUpdate) :
    (storeUpdateLocation m now so fs db bid u).history = db.history := by
  unfold storeUpdateLocation
  split <;> rfl

lemma storeUpdateLocation_rows (m : JsMath) (now : ℚ)
    (so : ℕ → Except Unit (List BusStop)) (fs : ℕ → Except Unit (Option BusStop))
    (db : Db) (bid : ℕ) (u : LocUpdate) :
    ∀ l ∈ (storeUpdateLocation m now so fs db bid u).liveLocations,
      l.busId = bid →
        l.latitude = u.latitude ∧ l.longitude = u.longitude ∧
        l.speedKmh = some u.speedKmh ∧ l.heading = u.heading ∧
        l.accuracyMeters = u.accuracyMeters := by
  intro l hl hbid
  unfold storeUpdateLocation at hl
  split at hl
  · rw [List.mem_map] at hl
    obtain ⟨l0, hl0, heq⟩ := hl
    by_cases hb : l0.busId == bid
    · rw [if_pos hb] at heq
      subst heq
      obtain ⟨-, h1, h2, h3, h4, h5⟩ :=
        updateNextStop_preserves_position m now so fs (applyUpsert l0 u)
      exact ⟨h1, h2, h3, h4, h5⟩
    · rw [if_neg hb] at heq
      subst heq
      exact absurd (by simp [hbid]) hb
  · rw [List.mem_append] at hl
    rcases hl with hl | hl
    · next hany =>
      exact absurd (List.any_eq_true.mpr ⟨l, hl, by simp [hbid]⟩) hany
    · rw [List.mem_singleton] at hl
      subst hl
      exact ⟨rfl, rfl, rfl, rfl, rfl⟩

/-- C6 as amended: for every position report on an active session owned by
the caller, and for every environment — whatever the next-stop query and the
stop fetch return, including thrown errors and empty results — the live-row
position write is persisted: the bus's row carries exactly the reported
coordinate, speed, heading and accuracy, and a recompute failure never aborts
or rolls back that write (it leaves the previous ETA value in place rather
than nulling it, see the counterexample).  The `LocationHistory` append,
however, never persists: the controller passes a null `tripLogId` against the
NOT NULL column, so the insert always throws after the live-row write and the
handler answers a generic 500 with the history unchanged. -/
theorem positionAlwaysPersisted (m : JsMath) (now : ℚ)
    (so : ℕ → Except Unit (List BusStop)) (fs : ℕ → Except Unit (Option BusStop))
    (db : Db) (uid bid : ℕ) (lat lng : ℚ) (sp hd acc : Option ℚ)
    (location : LiveLoc)
    (hfind : findByBusId db bid = some location)
    (hdrv : location.driverId = uid) :
    (updateLocationFlow m now so fs db uid bid lat lng sp hd acc).error =
      some ApiError.internalError ∧
    (updateLocationFlow m now so fs db uid bid lat lng sp hd acc).db.history =
      db.history ∧
    ∀ l ∈ (updateLocationFlow m now so fs db uid bid lat lng sp hd acc).db.liveLocations,
      l.busId = bid →
        l.latitude = lat ∧ l.longitude = lng ∧ l.speedKmh = some (sp.getD 0) ∧
        l.heading = hd ∧ l.accuracyMeters = acc := by
  have heq : updateLocationFlow m now so fs db uid bid lat lng sp hd acc =
      ⟨storeUpdateLocation m now so fs db bid
          ⟨lat, lng, sp.getD 0, hd, acc, uid, location.currentRouteId, true⟩,
        some ApiError.internalError, none, []⟩ := by
    unfold updateLocationFlow
    rw [hfind]
    simp [hdrv, historyCreate]
  rw [heq]
  exact ⟨rfl, storeUpdateLocation_history m now so fs db bid _,
    fun l hl hbid => storeUpdateLocation_rows m now so fs db bid _ l hl hbid⟩

/-- Witness for C6's amended statement: a concrete report on the active
session of bus 1 whose next-stop query throws answers the generic 500 with
the history log unchanged (while the live row was updated). -/
theorem positionAlwaysPersisted_witness :
    (updateLocationFlow mathZero 4000 stopsErr fetchStopNone dbPre6
      7 1 8 9 (some 15) none none).error = some ApiError.internalError ∧
    (updateLocationFlow mathZero 4000 stopsErr fetchStopNone dbPre6
      7 1 8 9 (some 15) none none).db.history = dbPre6.history := by
  have h := positionAlwaysPersisted mathZero 4000 stopsErr fetchStopNone dbPre6
    7 1 8 9 (some 15) none none preLoc6 (by decide) (by decide)
  exact ⟨h.1, h.2.1⟩

end CampusBus
